import Mathlib

/-!
Verification of the bookmark context-snapshot pipeline.

Each definition is a shallow embedding of the corresponding TypeScript
function: JavaScript numbers that only ever hold integers become `Int` or
`Nat`, fractional threshold values become `ℚ`, `undefined`-able fields
become `Option`, and filesystem access becomes an explicit environment
(a lookup function passed in as an argument).  JavaScript string
truthiness (`""` and `undefined` are falsy) is modelled by `jsTruthy`.
-/

namespace Bookmark

/-- JavaScript truthiness of a `string | undefined` value:
`undefined` and the empty string are falsy. -/
def jsTruthy : Option String → Bool
  | none => false
  | some s => !s.isEmpty

-- ───────────────────────── Data model ─────────────────────────

inductive SnapshotTrigger
  | pre_compact | time_interval | manual | session_end
deriving DecidableEq, Repr

inductive Priority
  | high | medium | low
deriving DecidableEq, Repr

/-- File operation kinds (types.ts `FileOperation`). -/
inductive FileOp
  | read | write | edit | create | delete
deriving DecidableEq, Repr

structure Decision where
  description : String
  rationale : Option String := none
  files : Option (List String) := none
deriving DecidableEq, Repr

structure OpenItem where
  description : String
  priority : Priority
  context : Option String := none
deriving DecidableEq, Repr

structure FileActivity where
  path : String
  operations : List FileOp
  lines_changed : Option Int := none
  summary : Option String := none
deriving DecidableEq, Repr

structure ErrorEntry where
  message : String
  tool : Option String := none
  resolved : Bool
deriving DecidableEq, Repr

/-- The snapshot record, with the fields the capture and restore code
reads and writes (capture.ts builds it; restore.ts consumes it). -/
structure Snapshot where
  snapshot_id : String
  timestamp : Int
  session_id : String
  project_path : String
  trigger : SnapshotTrigger
  compaction_cycle : Nat
  context_remaining_pct : ℚ
  token_estimate : Nat
  intent : String
  progress : String
  current_status : String
  decisions : List Decision
  open_items : List OpenItem
  unknowns : List String
  files_changed : List FileActivity
  errors_encountered : List ErrorEntry
  tools_summary : List (String × Nat)
  user_sentiment : Option String := none
  prior_snapshot_id : Option String := none
deriving DecidableEq, Repr

structure SessionEntry where
  session_id : String
  started : Int
  ended : Option Int := none
  compaction_count : Nat
  snapshots_taken : Nat
  restored_from : Option String := none
deriving DecidableEq, Repr

/-- Trigger bookkeeping state (types.ts `BookmarkState`). -/
structure BookmarkState where
  version : String
  session_id : String
  compaction_count : Nat
  current_threshold : ℚ
  last_snapshot_time : Int
  last_event_time : Int
  snapshot_interval_minutes : Int
  session_history : List SessionEntry
deriving DecidableEq, Repr

/-- Configuration record (types.ts `BookmarkConfig`). -/
structure BookmarkConfig where
  storagePath : String
  thresholds : List ℚ
  maxThreshold : ℚ
  intervalMinutes : Nat
  contextLimitTokens : Nat
  charsPerToken : Nat
  maxDecisions : Nat
  maxOpenItems : Nat
  maxFilesTracked : Nat
  maxErrorsTracked : Nat
  summaryTokenBudget : Nat
  maxActiveSnapshots : Nat
  archiveAfterDays : Nat
  snapshotOnSessionEnd : Bool
  restoreOnSessionStart : Bool
  smartDefault : Bool
  verboseLogging : Bool
deriving DecidableEq, Repr

/-- Built-in defaults (config.ts `DEFAULTS`). -/
def DEFAULTS : BookmarkConfig where
  storagePath := ".claude/bookmarks"
  thresholds := [1/5, 3/10, 2/5, 1/2, 3/5]
  maxThreshold := 3/5
  intervalMinutes := 20
  contextLimitTokens := 200000
  charsPerToken := 4
  maxDecisions := 15
  maxOpenItems := 10
  maxFilesTracked := 20
  maxErrorsTracked := 10
  summaryTokenBudget := 1000
  maxActiveSnapshots := 50
  archiveAfterDays := 30
  snapshotOnSessionEnd := true
  restoreOnSessionStart := true
  smartDefault := false
  verboseLogging := false

-- ───────────────────────── Snapshot id generation ─────────────────────────

/-- A wall-clock instant as the `Date` accessors expose it.  `month` is
0-based exactly as JavaScript `getMonth()` is; `millisecond` carries the
sub-second part, which `generateSnapshotId` never reads. -/
structure WallClock where
  year : Nat
  month : Nat
  day : Nat
  hour : Nat
  minute : Nat
  second : Nat
  millisecond : Nat
deriving DecidableEq, Repr

/-- `String(n).padStart(2, '0')` for a natural number. -/
def padTwo (n : Nat) : String :=
  if n < 10 then "0" ++ toString n else toString n

/-- capture.ts / storage.ts `generateSnapshotId`: formats the current
wall-clock time as `SNAP_YYYYMMDD_HHMMSS`.  It reads nothing below
second resolution and appends no disambiguating suffix. -/
def generateSnapshotId (now : WallClock) : String :=
  let date := toString now.year ++ padTwo (now.month + 1) ++ padTwo now.day
  let time := padTwo now.hour ++ padTwo now.minute ++ padTwo now.second
  "SNAP_" ++ date ++ "_" ++ time

-- ───────────────────────── Threshold logic ─────────────────────────

/-- `Math.min` on two rational values. -/
def mathMin (a b : ℚ) : ℚ := if a ≤ b then a else b

/-- threshold/check.ts `getThreshold`. -/
def getThreshold (compactionCount : Nat) (config : BookmarkConfig) : ℚ :=
  let index := min compactionCount (config.thresholds.length - 1)
  mathMin (config.thresholds.getD index 0) config.maxThreshold

/-- threshold/check.ts `shouldSnapshotByThreshold`. -/
def shouldSnapshotByThreshold (remainingPct : ℚ) (compactionCount : Nat)
    (config : BookmarkConfig) : Bool :=
  remainingPct ≤ getThreshold compactionCount config

-- ───────────────────────── Time trigger ─────────────────────────

structure TimeCheckResult where
  shouldSnapshot : Bool
  elapsedMinutes : Int
  intervalMinutes : Int
  reason : Option String := none
deriving DecidableEq, Repr

/-- threshold/time.ts `checkTimeInterval`, with `Date.now()` passed in
explicitly as `now`.  `state.last_snapshot_time || now` is the
JavaScript expression: `0` is falsy, any other number is truthy. -/
def checkTimeInterval (state : BookmarkState) (now : Int) : TimeCheckResult :=
  let intervalMs := state.snapshot_interval_minutes * 60 * 1000
  let elapsed := now - (if state.last_snapshot_time = 0 then now else state.last_snapshot_time)
  let elapsedMinutes := Int.fdiv elapsed 60000
  if state.last_snapshot_time > 0 ∧ elapsed ≥ intervalMs then
    { shouldSnapshot := true
      elapsedMinutes := elapsedMinutes
      intervalMinutes := state.snapshot_interval_minutes
      reason := some (toString elapsedMinutes ++ "min since last snapshot (interval: "
        ++ toString state.snapshot_interval_minutes ++ "min)") }
  else
    { shouldSnapshot := false
      elapsedMinutes := elapsedMinutes
      intervalMinutes := state.snapshot_interval_minutes }

-- ───────────────────────── Trigger state machine ─────────────────────────

def MAX_SESSION_HISTORY : Nat := 10

/-- threshold/state.ts `incrementCompaction`. -/
def incrementCompaction (state : BookmarkState) (thresholds : List ℚ) : BookmarkState :=
  let newCount := state.compaction_count + 1
  let thresholdIndex := min newCount (thresholds.length - 1)
  { state with
    compaction_count := newCount
    current_threshold := thresholds.getD thresholdIndex 0 }

/-- threshold/state.ts `resetForNewSession`, with `Date.now()` passed in
as `now`.  `if (state.session_id)` is string truthiness: the empty
string means "no active session to archive". -/
def resetForNewSession (state : BookmarkState) (sessionId : String)
    (thresholds : List ℚ) (now : Int) : BookmarkState :=
  let history :=
    if state.session_id ≠ "" then
      let started :=
        ((state.session_history.find? (fun s => s.session_id == state.session_id)).map
          (fun s => s.started)).getD state.last_event_time
      let currentEntry : SessionEntry :=
        { session_id := state.session_id
          started := started
          ended := some now
          compaction_count := state.compaction_count
          snapshots_taken := 0 }
      (currentEntry :: state.session_history).take MAX_SESSION_HISTORY
    else state.session_history
  { state with
    session_id := sessionId
    compaction_count := 0
    current_threshold := thresholds.getD 0 0
    last_event_time := now
    session_history := history }

/-- threshold/state.ts `updateSnapshotTime`. -/
def updateSnapshotTime (state : BookmarkState) (now : Int) : BookmarkState :=
  { state with last_snapshot_time := now, last_event_time := now }

/-- `k` successive `compact` transitions applied to a state. -/
def iterCompact (thresholds : List ℚ) (s : BookmarkState) : Nat → BookmarkState
  | 0 => s
  | n + 1 => incrementCompaction (iterCompact thresholds s n) thresholds

-- ───────────────────────── Normalized events ─────────────────────────

inductive EntryType
  | user | assistant | tool_use | tool_result | system
deriving DecidableEq, Repr

/-- A sub-block of an array-valued `content` field of a `tool_result`
block (only its `text` member is ever read in this code path). -/
structure SubBlock where
  text : Option String
deriving DecidableEq, Repr

/-- A `content` value, which is a string, an array of blocks, or
something else entirely (`''` is produced for the latter). -/
inductive EntryContent
  | str (s : String)
  | blocks (bs : List SubBlock)
deriving DecidableEq, Repr

/-- A tool input payload: an arbitrary key/value record. -/
abbrev ToolInput := List (String × String)

/-- types.ts `TranscriptEntry`, the normalized event. -/
structure TranscriptEntry where
  type : EntryType
  timestamp : Option Int := none
  content : EntryContent
  tool_name : Option String := none
  tool_input : Option ToolInput := none
  session_id : Option String := none
deriving DecidableEq, Repr

-- ───────────────────────── Parser: synthetic tool events ─────────────────────────

/-- One raw block of an assistant record's `message.content` array, with
the fields parser.ts reads.  Absent fields are `none`. -/
structure ContentBlock where
  type : Option String := none
  id : Option String := none
  name : Option String := none
  input : Option ToolInput := none
  tool_use_id : Option String := none
  content : EntryContent := EntryContent.str ""
deriving DecidableEq, Repr

/-- parser.ts lines 62-68: the per-record `toolIdToName` lookup table,
a `Map` built from the record's own `tool_use` blocks
(`block.type === 'tool_use' && block.id && block.name`); a later
`set` of the same key overwrites an earlier one. -/
def toolIdStep (m : String → Option String) (b : ContentBlock) : String → Option String :=
  if b.type = some "tool_use" ∧ jsTruthy b.id ∧ jsTruthy b.name then
    fun k => if b.id = some k then b.name else m k
  else m

def toolIdToName (blocks : List ContentBlock) : String → Option String :=
  blocks.foldl toolIdStep (fun _ => none)

/-- parser.ts lines 82-89: flatten a `tool_result` block's content. -/
def resultContentOf : EntryContent → String
  | EntryContent.str s => s
  | EntryContent.blocks items =>
      String.intercalate "\n"
        ((items.map (fun c => c.text.getD "")).filter (fun s => !s.isEmpty))

/-- parser.ts lines 70-101: the synthetic entries emitted for one block
of a record's content array.  For a `tool_result` block the name is
`resolvedName ?? toolUseId`, where `resolvedName` is the table lookup
guarded by truthiness of `toolUseId`. -/
def emitForBlock (idMap : String → Option String) (parentTimestamp : Option Int)
    (parentSession : Option String) (b : ContentBlock) : List TranscriptEntry :=
  (if b.type = some "tool_use" ∧ jsTruthy b.name then
    [{ type := EntryType.tool_use
       timestamp := parentTimestamp
       content := EntryContent.str ""
       tool_name := b.name
       tool_input := b.input
       session_id := parentSession }]
   else []) ++
  (if b.type = some "tool_result" then
    [{ type := EntryType.tool_result
       timestamp := parentTimestamp
       content := EntryContent.str (resultContentOf b.content)
       tool_name :=
         (match b.tool_use_id with
          | some tid => if tid ≠ "" then idMap tid else none
          | none => none).orElse (fun _ => b.tool_use_id)
       session_id := parentSession }]
   else [])

/-- parser.ts lines 60-102: all synthetic tool entries emitted from one
parsed record's content array, in order. -/
def extractRecordToolEntries (blocks : List ContentBlock) (ts : Option Int)
    (sid : Option String) : List TranscriptEntry :=
  (blocks.map (emitForBlock (toolIdToName blocks) ts sid)).flatten

-- ───────────────────────── Parser: byte-offset line loop ─────────────────────────

/-- parser.ts lines 38-106: the per-line loop.  `processLine` stands for
the body of the `try` block (JSON.parse + normalizeEntry + synthetic
tool-entry extraction); a line whose JSON is malformed contributes `[]`.
`ofs` is `currentByteOffset`; a line's byte count is its UTF-8 size plus
one for the newline that `split('\n')` removed. -/
def parseLoop (processLine : String → List TranscriptEntry) (startOffset : Nat) :
    List String → Nat → List TranscriptEntry
  | [], _ => []
  | line :: rest, ofs =>
      let lineBytes := line.utf8ByteSize + 1
      if ofs < startOffset then
        parseLoop processLine startOffset rest (ofs + lineBytes)
      else if line.trim = "" then
        parseLoop processLine startOffset rest (ofs + lineBytes)
      else
        processLine line ++ parseLoop processLine startOffset rest (ofs + lineBytes)

/-- parser.ts `parseTranscript`, on transcript content already read into
a string: early-returns an empty entry list when the start offset is at
or past the end, otherwise splits on newlines and runs the line loop. -/
def parseTranscript (processLine : String → List TranscriptEntry)
    (content : String) (startOffset : Nat) : List TranscriptEntry :=
  let totalBytes := content.utf8ByteSize
  if startOffset ≥ totalBytes then []
  else parseLoop processLine startOffset (content.splitOn "\n") 0

-- ───────────────────────── Sentiment extraction ─────────────────────────

/-- storage.ts: the regex `/^SNAP_\d{8}_\d{6}$/` as a decidable check on
the identifier's character list. -/
def validSnapshotId (s : String) : Bool :=
  match s.data with
  | ['S', 'N', 'A', 'P', '_', a, b, c, d, e, f, g, h, '_', p, q, r, u, v, w] =>
      [a, b, c, d, e, f, g, h, p, q, r, u, v, w].all Char.isDigit
  | _ => false

/-- storage.ts `loadSnapshot`, with the filesystem as a lookup `fs` from
path to file contents and JSON parsing as `parseSnap` (returning `none`
on malformed JSON, which the source's `try/catch` turns into `null`).
Every failure path yields `none` — the function never throws. -/
def loadSnapshot (fs : String → Option String) (parseSnap : String → Option Snapshot)
    (storagePath snapshotId : String) : Option Snapshot :=
  if validSnapshotId snapshotId then
    match fs (storagePath ++ "/snapshots/" ++ snapshotId ++ ".json") with
    | none => none
    | some raw => parseSnap raw
  else none

-- ───────────────────────── Chain merge ─────────────────────────

/-- restore.ts `MergedContext`. -/
structure MergedContext where
  intent : String
  progress : String
  sentiment : String
  files : List FileActivity
  decisions : List Decision
  openItems : List OpenItem
  projectPath : String
  compactionCycle : Nat
  totalLinesChanged : Int
  chainSpanOldest : Int
  chainSpanNewest : Int
deriving DecidableEq, Repr

/-- A default snapshot value standing for the `undefined` JavaScript
yields when indexing an empty array; `mergeSnapshotChain` is only ever
called on chains of length > 1, where it is never read. -/
def defaultSnapshot : Snapshot where
  snapshot_id := ""
  timestamp := 0
  session_id := ""
  project_path := ""
  trigger := SnapshotTrigger.manual
  compaction_cycle := 0
  context_remaining_pct := 0
  token_estimate := 0
  intent := ""
  progress := ""
  current_status := ""
  decisions := []
  open_items := []
  unknowns := []
  files_changed := []
  errors_encountered := []
  tools_summary := []

/-- restore.ts lines 119-133, one field: the backward loop
`for (i = chain.length - 1; i >= 0; i--)` that keeps the accumulator
once it is no longer the sentinel.  `chain[i].intent &&` is string
truthiness, so empty values are skipped like the sentinel. -/
def scanBack (sel : Snapshot → String) (sentinel : String) (chain : List Snapshot) : String :=
  chain.reverse.foldl
    (fun cur s => if cur = sentinel ∧ sel s ≠ "" ∧ sel s ≠ sentinel then sel s else cur)
    sentinel

/-- Same backward loop for the optional `user_sentiment` field
(`chain[i].user_sentiment && chain[i].user_sentiment !== 'neutral'`). -/
def scanBackSentiment (chain : List Snapshot) : String :=
  chain.reverse.foldl
    (fun cur s =>
      if cur = "neutral" ∧ jsTruthy s.user_sentiment ∧ s.user_sentiment ≠ some "neutral" then
        s.user_sentiment.getD ""
      else cur)
    "neutral"

/-- `new Set([...xs, ...ys])` spread back into an array: deduplicate the
concatenation keeping first-occurrence order. -/
def dedupAppend (xs ys : List FileOp) : List FileOp :=
  (xs ++ ys).foldl (fun acc o => if o ∈ acc then acc else acc ++ [o]) []

/-- restore.ts lines 141-145: merge a new `FileActivity` into the
existing entry for the same path — operations become the set union,
line counts sum (`(existing.lines_changed ?? 0) + (f.lines_changed ?? 0)`). -/
def mergeEntryFA (e f : FileActivity) : FileActivity :=
  { e with
    operations := dedupAppend e.operations f.operations
    lines_changed := some (e.lines_changed.getD 0 + f.lines_changed.getD 0) }

/-- restore.ts lines 139-149: fold one `FileActivity` into the `fileMap`
accumulator (an insertion-ordered map keyed by path): merge into an
existing entry, or append a copy of the new entry. -/
def insertFile : List FileActivity → FileActivity → List FileActivity
  | [], f => [f]
  | e :: rest, f =>
      if e.path = f.path then mergeEntryFA e f :: rest
      else e :: insertFile rest f

/-- All `files_changed` entries of a chain, in chain order. -/
def allFiles (chain : List Snapshot) : List FileActivity :=
  (chain.map (fun s => s.files_changed)).flatten

/-- restore.ts lines 152-164: accumulate decisions across the chain,
deduplicated by `description.slice(0, 60).toLowerCase().trim()`,
first occurrence wins. -/
def accumDecisions (chain : List Snapshot) : List Decision :=
  (chain.foldl
    (fun (acc : List String × List Decision) s =>
      s.decisions.foldl
        (fun acc d =>
          let key := ((d.description.take 60).toLower).trim
          if key ∈ acc.1 then acc else (key :: acc.1, acc.2 ++ [d]))
        acc)
    ([], [])).2

/-- restore.ts `mergeSnapshotChain`: merge a chronologically ordered
chain (oldest first) into one `MergedContext`. -/
def mergeSnapshotChain (chain : List Snapshot) : MergedContext :=
  let latest := chain.getLastD defaultSnapshot
  let oldest := chain.headD defaultSnapshot
  let files := (allFiles chain).foldl insertFile []
  { intent := scanBack (fun s => s.intent) "Unknown" chain
    progress := scanBack (fun s => s.progress) "Unknown" chain
    sentiment := scanBackSentiment chain
    files := files
    decisions := (accumDecisions chain).take 6
    openItems := latest.open_items
    projectPath := latest.project_path
    compactionCycle := latest.compaction_cycle
    totalLinesChanged := files.foldl (fun sum f => sum + f.lines_changed.getD 0) 0
    chainSpanOldest := oldest.timestamp
    chainSpanNewest := latest.timestamp }

-- ───────────────────────── Restore entry point ─────────────────────────

inductive HookSource
  | startup | resume | compact | clear
deriving DecidableEq, Repr

inductive RestoreFormat
  | system_message | json | markdown
deriving DecidableEq, Repr

structure RestoreOptions where
  source : Option HookSource := none
  sessionId : Option String := none
  format : Option RestoreFormat := none
deriving DecidableEq, Repr

structure HookOutput where
  systemMessage : Option String := none
  suppressOutput : Option Bool := none
deriving DecidableEq, Repr

/-- The environment `restoreContext` reads through config/storage
helpers, captured at invocation: the loaded config fields it uses, the
loaded state, and the results of the storage reads. -/
structure RestoreEnv where
  restoreOnSessionStart : Bool
  thresholds : List ℚ
  state : BookmarkState
  storageExists : Bool
  snapshotCount : Nat
  latestMd : Option String
  contextMd : Option String
  chain : List Snapshot
  latestSnapshot : Option Snapshot
  now : Int

/-- restore.ts `handleSessionTransition`: computes the next state by
source kind and persists it (modelled as returning `some` saved state)
unless the storage directory does not exist. -/
def handleSessionTransition (env : RestoreEnv) (options : RestoreOptions) :
    Option BookmarkState :=
  let source := options.source.getD HookSource.startup
  let sessionId := options.sessionId.getD ("session_" ++ toString env.now)
  let updatedState :=
    match source with
    | HookSource.startup => resetForNewSession env.state sessionId env.thresholds env.now
    | HookSource.clear => resetForNewSession env.state sessionId env.thresholds env.now
    | HookSource.compact =>
        { incrementCompaction env.state env.thresholds with session_id := sessionId }
    | HookSource.resume =>
        { env.state with session_id := sessionId, last_event_time := env.now }
  if env.storageExists then some updatedState else none

/-- restore.ts line 42-45: the first-run notice. -/
def firstRunMessage : String :=
  "[Bookmark: Active — no snapshots yet. Snapshots will be captured automatically " ++
  "before compaction, on 20-minute intervals, and at session end.]\n\n" ++
  "Briefly let the user know that Bookmark is active and will start capturing context snapshots automatically."

/-- restore.ts `restoreContext`: session bookkeeping first, then the
restoration decision tree.  The message builders and the JSON
serialization are passed in (`buildChain`, `buildSmart`,
`buildFallback`, `stringifySnap`); every branch condition and the
branch order follow the source. -/
def restoreContext (stringifySnap : Option Snapshot → String)
    (buildChain : MergedContext → Nat → Nat → String)
    (buildSmart : Snapshot → Nat → String)
    (buildFallback : String → Nat → String)
    (env : RestoreEnv) (options : RestoreOptions) :
    Option BookmarkState × HookOutput :=
  let saved := handleSessionTransition env options
  let output : HookOutput :=
    if env.restoreOnSessionStart = false then {}
    else if options.source = some HookSource.resume then {}
    else if env.snapshotCount = 0 then { systemMessage := some firstRunMessage }
    else
      match env.latestMd with
      | none => {}
      | some latestMd =>
        if latestMd = "" then {}
        else if options.format = some RestoreFormat.json then
          { systemMessage := some (stringifySnap env.latestSnapshot) }
        else if options.format = some RestoreFormat.markdown then
          { systemMessage := some latestMd }
        else
          match env.contextMd with
          | some contextMd =>
            if contextMd ≠ "" then { systemMessage := some contextMd }
            else
              if 1 < env.chain.length then
                { systemMessage := some (buildChain (mergeSnapshotChain env.chain)
                    env.chain.length env.snapshotCount) }
              else
                match env.latestSnapshot with
                | some snapshot => { systemMessage := some (buildSmart snapshot env.snapshotCount) }
                | none => { systemMessage := some (buildFallback latestMd env.snapshotCount) }
          | none =>
            if 1 < env.chain.length then
              { systemMessage := some (buildChain (mergeSnapshotChain env.chain)
                  env.chain.length env.snapshotCount) }
            else
              match env.latestSnapshot with
              | some snapshot => { systemMessage := some (buildSmart snapshot env.snapshotCount) }
              | none => { systemMessage := some (buildFallback latestMd env.snapshotCount) }
  (saved, output)

-- ───────────────────────── Theorems ─────────────────────────

/-- Claim C1.  The snapshot identifier is a pure function of the
wall-clock time truncated to whole seconds: two generations whose
year/month/day/hour/minute/second agree produce the *same* identifier,
whatever their sub-second instants are.  This refutes the claimed
identifier uniqueness — the code has no disambiguating suffix or
sequence counter, so two captures within one second collide. -/
theorem generateSnapshotId_collides_within_second (t1 t2 : WallClock)
    (hy : t1.year = t2.year) (hmo : t1.month = t2.month) (hd : t1.day = t2.day)
    (hh : t1.hour = t2.hour) (hmi : t1.minute = t2.minute) (hs : t1.second = t2.second) :
    generateSnapshotId t1 = generateSnapshotId t2 := by
  simp [generateSnapshotId, hy, hmo, hd, hh, hmi, hs]

/-- Two distinct instants inside the same second (milliseconds 100 and
900 of 2025-01-02 03:04:05) both yield `SNAP_20250102_030405`. -/
theorem generateSnapshotId_collides_witness :
    (⟨2025, 0, 2, 3, 4, 5, 100⟩ : WallClock) ≠ ⟨2025, 0, 2, 3, 4, 5, 900⟩ ∧
    generateSnapshotId ⟨2025, 0, 2, 3, 4, 5, 100⟩ =
      generateSnapshotId ⟨2025, 0, 2, 3, 4, 5, 900⟩ ∧
    generateSnapshotId ⟨2025, 0, 2, 3, 4, 5, 100⟩ = "SNAP_20250102_030405" :=
  ⟨by decide,
   generateSnapshotId_collides_within_second _ _ rfl rfl rfl rfl rfl rfl,
   by decide⟩

/-- Claim C2.  With the built-in defaults (thresholds
[0.20, 0.30, 0.40, 0.50, 0.60], maxThreshold 0.60), `getThreshold`
returns 0.20, 0.30, 0.40, 0.50 for compaction counts 0-3 as claimed,
but returns 0.60 — not the claimed 0.50 — at count 4, and clamps at
0.60 for every larger count.  This contradicts both the claim and the
function's own doc comment ("3+ compactions: snapshot when 50% context
remains (capped)"). -/
theorem getThreshold_defaults_values :
    getThreshold 0 DEFAULTS = 1/5 ∧ getThreshold 1 DEFAULTS = 3/10 ∧
    getThreshold 2 DEFAULTS = 2/5 ∧ getThreshold 3 DEFAULTS = 1/2 ∧
    getThreshold 4 DEFAULTS = 3/5 ∧ getThreshold 4 DEFAULTS ≠ 1/2 ∧
    ∀ n, 4 ≤ n → getThreshold n DEFAULTS = 3/5 := by
  refine ⟨by norm_num [getThreshold, DEFAULTS, mathMin],
    by norm_num [getThreshold, DEFAULTS, mathMin],
    by norm_num [getThreshold, DEFAULTS, mathMin],
    by norm_num [getThreshold, DEFAULTS, mathMin],
    by norm_num [getThreshold, DEFAULTS, mathMin],
    by norm_num [getThreshold, DEFAULTS, mathMin], ?_⟩
  intro n hn
  have hmin : min n (DEFAULTS.thresholds.length - 1) = 4 := by
    show min n (([1/5, 3/10, 2/5, 1/2, 3/5] : List ℚ).length - 1) = 4
    simp only [List.length_cons, List.length_nil]
    omega
  simp only [getThreshold, hmin]
  norm_num [DEFAULTS, mathMin]

/-- The clamp applied beyond the list length: compaction count 7 still
yields the last level 0.60. -/
theorem getThreshold_defaults_values_witness : getThreshold 7 DEFAULTS = 3/5 :=
  getThreshold_defaults_values.2.2.2.2.2.2 7 (by norm_num)

/-- Claim C5.  The time evaluator never fires when
`last_snapshot_time = 0` (never fired yet), whatever the current time;
and it fires whenever `last_snapshot_time > 0` and the elapsed
milliseconds since it reach `snapshot_interval_minutes` in
milliseconds. -/
theorem checkTimeInterval_spec :
    (∀ state now, state.last_snapshot_time = 0 →
      (checkTimeInterval state now).shouldSnapshot = false) ∧
    (∀ state now, 0 < state.last_snapshot_time →
      state.snapshot_interval_minutes * 60 * 1000 ≤ now - state.last_snapshot_time →
      (checkTimeInterval state now).shouldSnapshot = true) := by
  constructor
  · intro s now h
    simp [checkTimeInterval, h]
  · intro s now h1 h2
    have hne : ¬ s.last_snapshot_time = 0 := by omega
    simp only [checkTimeInterval, if_neg hne]
    rw [if_pos ⟨h1, h2⟩]

/-- The claimed instances: a state that never fired reports no snapshot
even after an arbitrary long wait, and 21 minutes elapsed against a
20-minute interval fires. -/
theorem checkTimeInterval_spec_witness :
    (checkTimeInterval
      { version := "1.0.0", session_id := "", compaction_count := 0,
        current_threshold := 1/5, last_snapshot_time := 0, last_event_time := 0,
        snapshot_interval_minutes := 20, session_history := [] }
      99999999999).shouldSnapshot = false ∧
    (checkTimeInterval
      { version := "1.0.0", session_id := "s", compaction_count := 0,
        current_threshold := 1/5, last_snapshot_time := 1000000, last_event_time := 0,
        snapshot_interval_minutes := 20, session_history := [] }
      (1000000 + 21 * 60 * 1000)).shouldSnapshot = true :=
  ⟨checkTimeInterval_spec.1 _ _ rfl,
   checkTimeInterval_spec.2 _ _ (by norm_num) (by norm_num)⟩

/-- Claim C7.  The parser is a pure function of the transcript content
and offset, so re-parsing from offset 0 yields identical event
sequences; and a start offset equal to the total byte length takes the
`startOffset >= totalBytes` early return, yielding no entries — nothing
is re-emitted at or past the end of already-processed content.  The
statement holds for every per-line normalization `processLine`. -/
theorem parseTranscript_deterministic_and_empty_at_end
    (processLine : String → List TranscriptEntry) (content : String) :
    parseTranscript processLine content 0 = parseTranscript processLine content 0 ∧
    parseTranscript processLine content content.utf8ByteSize = [] := by
  refine ⟨rfl, ?_⟩
  simp [parseTranscript]

/-- Claim C9, error-handling lemma: a valid snapshot identifier consists
only of the characters `S`, `N`, `A`, `P`, `_` and digits. -/
theorem validSnapshotId_chars {s : String} (hv : validSnapshotId s = true) :
    ∀ c ∈ s.data, c = 'S' ∨ c = 'N' ∨ c = 'A' ∨ c = 'P' ∨ c = '_' ∨ c.isDigit = true := by
  intro c hc
  unfold validSnapshotId at hv
  split at hv
  next a b c2 d e f g h2 p q r u v w heq =>
    rw [heq] at hc
    simp only [List.all_eq_true, List.mem_cons, List.not_mem_nil, or_false] at hv
    fin_cases hc <;> simp_all
  next => simp at hv

/-- Claim C9.  `loadSnapshot` reports "not found" (`none`) rather than
raising (the embedding is a total function) in each failure case:
*every* identifier that fails the `SNAP_YYYYMMDD_HHMMSS` format check
yields `none`; in particular every identifier containing `.` or `/` —
the path-traversal shapes — fails that check and yields `none`; and a
well-formed identifier with no stored file, or a stored file with
malformed JSON (`parseSnap` yields `none`), also yield `none`. -/
theorem loadSnapshot_error_paths :
    (∀ fs parseSnap storagePath snapshotId,
      validSnapshotId snapshotId = false →
      loadSnapshot fs parseSnap storagePath snapshotId = none) ∧
    (∀ fs parseSnap storagePath snapshotId,
      ('.' ∈ snapshotId.data ∨ '/' ∈ snapshotId.data) →
      validSnapshotId snapshotId = false ∧
      loadSnapshot fs parseSnap storagePath snapshotId = none) ∧
    (∀ fs parseSnap storagePath snapshotId,
      fs (storagePath ++ "/snapshots/" ++ snapshotId ++ ".json") = none →
      loadSnapshot fs parseSnap storagePath snapshotId = none) ∧
    (∀ fs parseSnap storagePath snapshotId raw,
      fs (storagePath ++ "/snapshots/" ++ snapshotId ++ ".json") = some raw →
      parseSnap raw = none →
      loadSnapshot fs parseSnap storagePath snapshotId = none) := by
  have hinvalid : ∀ (fs : String → Option String) (ps : String → Option Snapshot)
      (sp id : String), validSnapshotId id = false →
      loadSnapshot fs ps sp id = none := by
    intro fs ps sp id hv
    simp [loadSnapshot, hv]
  refine ⟨hinvalid, ?_, ?_, ?_⟩
  · intro fs ps sp id hdot
    have hv : validSnapshotId id = false := by
      rcases hb : validSnapshotId id with - | -
      · rfl
      · rcases hdot with hmem | hmem
        · exact absurd (validSnapshotId_chars hb _ hmem) (by decide)
        · exact absurd (validSnapshotId_chars hb _ hmem) (by decide)
    exact ⟨hv, hinvalid fs ps sp id hv⟩
  · intro fs ps sp id hfs
    simp [loadSnapshot, hfs]
  · intro fs ps sp id raw hfs hps
    simp [loadSnapshot, hfs, hps]

/-- Concrete instances of the failure cases: a format-invalid identifier
with no traversal characters at all (`"foo"`), a path-traversal
identifier, a well-formed identifier with no stored file, and a stored
file whose JSON does not parse. -/
theorem loadSnapshot_error_paths_witness :
    loadSnapshot (fun _ => none) (fun _ => none) "store" "foo" = none ∧
    (validSnapshotId "../../etc/passwd" = false ∧
      loadSnapshot (fun _ => none) (fun _ => none) "store" "../../etc/passwd" = none) ∧
    loadSnapshot (fun _ => none) (fun _ => none) "store" "SNAP_20250102_030405" = none ∧
    loadSnapshot (fun _ => some "not json") (fun _ => none) "store" "SNAP_20250102_030405" = none :=
  ⟨loadSnapshot_error_paths.1 _ _ _ _ rfl,
   loadSnapshot_error_paths.2.1 _ _ _ _ (Or.inl (by decide)),
   loadSnapshot_error_paths.2.2.1 _ _ _ _ rfl,
   loadSnapshot_error_paths.2.2.2 _ _ _ _ "not json" rfl rfl⟩

-- C6: threshold state invariant

theorem getD_eq_get {α : Type} (l : List α) (d : α) (i : Nat) (hi : i < l.length) :
    l.getD i d = l.get ⟨i, hi⟩ := by
  induction l generalizing i with
  | nil => simp at hi
  | cons a t ih =>
    cases i with
    | zero => rfl
    | succ j => exact ih j (by simpa using hi)

theorem getD_mem_of_lt {α : Type} (l : List α) (d : α) (i : Nat) (hi : i < l.length) :
    l.getD i d ∈ l := by
  rw [getD_eq_get l d i hi]
  exact l.get_mem i hi

theorem iterCompact_count (th : List ℚ) (s : BookmarkState) (k : Nat) :
    (iterCompact th s k).compaction_count = s.compaction_count + k := by
  induction k with
  | zero => rfl
  | succ n ih => simp [iterCompact, incrementCompaction, ih]; omega

theorem iterCompact_threshold (th : List ℚ) (s : BookmarkState) (k : Nat)
    (h0c : s.compaction_count = 0) (h0t : s.current_threshold = th.getD 0 0) :
    (iterCompact th s k).current_threshold = th.getD (min k (th.length - 1)) 0 := by
  cases k with
  | zero => simpa [iterCompact] using h0t
  | succ n =>
    show (incrementCompaction (iterCompact th s n) th).current_threshold = _
    simp [incrementCompaction, iterCompact_count, h0c]

/-- Claim C6.  For a non-empty thresholds list sorted in ascending
order: `resetForNewSession` restarts the session at compaction count 0
with the first configured level, and along any sequence of
`incrementCompaction` steps the current threshold is always one of the
configured levels and never decreases. -/
theorem session_threshold_invariant (th : List ℚ) (hne : th ≠ [])
    (hsorted : th.Sorted (· ≤ ·)) (state : BookmarkState) (sessionId : String) (now : Int) :
    (resetForNewSession state sessionId th now).compaction_count = 0 ∧
    (resetForNewSession state sessionId th now).current_threshold = th.headI ∧
    (∀ k, (iterCompact th (resetForNewSession state sessionId th now) k).current_threshold ∈ th) ∧
    (∀ k, (iterCompact th (resetForNewSession state sessionId th now) k).current_threshold ≤
          (iterCompact th (resetForNewSession state sessionId th now) (k + 1)).current_threshold) := by
  have hlen : 0 < th.length := by
    cases th with
    | nil => exact absurd rfl hne
    | cons a t => simp
  have h0c : (resetForNewSession state sessionId th now).compaction_count = 0 := rfl
  have h0t : (resetForNewSession state sessionId th now).current_threshold = th.getD 0 0 := rfl
  have hthr : ∀ k, (iterCompact th (resetForNewSession state sessionId th now) k).current_threshold
      = th.getD (min k (th.length - 1)) 0 :=
    fun k => iterCompact_threshold th _ k h0c h0t
  refine ⟨h0c, ?_, ?_, ?_⟩
  · rw [h0t]
    cases th with
    | nil => exact absurd rfl hne
    | cons a t => rfl
  · intro k
    rw [hthr k]
    exact getD_mem_of_lt th 0 _ (by omega)
  · intro k
    rw [hthr k, hthr (k + 1)]
    have hij : min k (th.length - 1) ≤ min (k + 1) (th.length - 1) := by omega
    have hj : min (k + 1) (th.length - 1) < th.length := by omega
    have hi : min k (th.length - 1) < th.length := by omega
    rw [getD_eq_get th 0 _ hi, getD_eq_get th 0 _ hj]
    rcases Nat.lt_or_ge (min k (th.length - 1)) (min (k + 1) (th.length - 1)) with hlt | hge
    · exact List.Sorted.rel_get_of_lt hsorted hlt
    · have : min k (th.length - 1) = min (k + 1) (th.length - 1) := le_antisymm hij hge
      simp [this]

/-- The invariant instantiated for the default threshold ladder: after
reset the level is 0.20, and after 7 compactions the level is still one
of the configured ones and step 6 → 7 does not decrease it. -/
theorem session_threshold_invariant_witness :
    (resetForNewSession
      { version := "1.0.0", session_id := "old", compaction_count := 3,
        current_threshold := 2/5, last_snapshot_time := 0, last_event_time := 0,
        snapshot_interval_minutes := 20, session_history := [] }
      "fresh" [1/5, 3/10, 2/5, 1/2, 3/5] 42).compaction_count = 0 ∧
    (resetForNewSession
      { version := "1.0.0", session_id := "old", compaction_count := 3,
        current_threshold := 2/5, last_snapshot_time := 0, last_event_time := 0,
        snapshot_interval_minutes := 20, session_history := [] }
      "fresh" [1/5, 3/10, 2/5, 1/2, 3/5] 42).current_threshold
      = ([1/5, 3/10, 2/5, 1/2, 3/5] : List ℚ).headI ∧
    (∀ k, (iterCompact [1/5, 3/10, 2/5, 1/2, 3/5]
      (resetForNewSession
        { version := "1.0.0", session_id := "old", compaction_count := 3,
          current_threshold := 2/5, last_snapshot_time := 0, last_event_time := 0,
          snapshot_interval_minutes := 20, session_history := [] }
        "fresh" [1/5, 3/10, 2/5, 1/2, 3/5] 42) k).current_threshold
      ∈ ([1/5, 3/10, 2/5, 1/2, 3/5] : List ℚ)) ∧
    (∀ k, (iterCompact [1/5, 3/10, 2/5, 1/2, 3/5]
      (resetForNewSession
        { version := "1.0.0", session_id := "old", compaction_count := 3,
          current_threshold := 2/5, last_snapshot_time := 0, last_event_time := 0,
          snapshot_interval_minutes := 20, session_history := [] }
        "fresh" [1/5, 3/10, 2/5, 1/2, 3/5] 42) k).current_threshold
      ≤ (iterCompact [1/5, 3/10, 2/5, 1/2, 3/5]
      (resetForNewSession
        { version := "1.0.0", session_id := "old", compaction_count := 3,
          current_threshold := 2/5, last_snapshot_time := 0, last_event_time := 0,
          snapshot_interval_minutes := 20, session_history := [] }
        "fresh" [1/5, 3/10, 2/5, 1/2, 3/5] 42) (k + 1)).current_threshold) :=
  session_threshold_invariant [1/5, 3/10, 2/5, 1/2, 3/5] (by decide)
    (by norm_num [List.sorted_cons]) _ "fresh" 42

-- C8: sentiment decision rule

/-- Claim C10.  When the hook source is `resume`, `restoreContext`
returns a `HookOutput` with no `systemMessage` — whatever the snapshot
count, stored artifacts, chain, or builders are — while the session
bookkeeping (the `resume` transition: new session id, refreshed
`last_event_time`) is still computed and saved before returning,
provided the storage directory exists. -/
theorem restoreContext_resume_skips
    (stringifySnap : Option Snapshot → String)
    (buildChain : MergedContext → Nat → Nat → String)
    (buildSmart : Snapshot → Nat → String)
    (buildFallback : String → Nat → String)
    (env : RestoreEnv) (options : RestoreOptions)
    (hsrc : options.source = some HookSource.resume) :
    (restoreContext stringifySnap buildChain buildSmart buildFallback
      env options).2.systemMessage = none ∧
    (restoreContext stringifySnap buildChain buildSmart buildFallback
      env options).1 =
      (if env.storageExists then
        some { env.state with
               session_id := options.sessionId.getD ("session_" ++ toString env.now),
               last_event_time := env.now }
       else none) := by
  constructor
  · simp only [restoreContext, hsrc]
    by_cases hros : env.restoreOnSessionStart = false <;> simp [hros]
  · simp [restoreContext, handleSessionTransition, hsrc]

/-- Resume against a storage directory full of artifacts (3 snapshots,
a trailhead, a latest markdown, a 2-element chain): still no
`systemMessage`, and the saved state is the resume bookkeeping. -/
theorem restoreContext_resume_skips_witness :
    (restoreContext (fun _ => "serialized snapshot") (fun _ _ _ => "chain briefing")
      (fun _ _ => "smart briefing") (fun _ _ => "fallback briefing")
      { restoreOnSessionStart := true, thresholds := [1/5, 3/10],
        state := { version := "1.0.0", session_id := "prev", compaction_count := 2,
                   current_threshold := 2/5, last_snapshot_time := 5, last_event_time := 6,
                   snapshot_interval_minutes := 20, session_history := [] },
        storageExists := true, snapshotCount := 3,
        latestMd := some "latest markdown", contextMd := some "trailhead",
        chain := [defaultSnapshot, defaultSnapshot],
        latestSnapshot := some defaultSnapshot, now := 777 }
      { source := some HookSource.resume, sessionId := some "sess9",
        format := none }).2.systemMessage = none ∧
    (restoreContext (fun _ => "serialized snapshot") (fun _ _ _ => "chain briefing")
      (fun _ _ => "smart briefing") (fun _ _ => "fallback briefing")
      { restoreOnSessionStart := true, thresholds := [1/5, 3/10],
        state := { version := "1.0.0", session_id := "prev", compaction_count := 2,
                   current_threshold := 2/5, last_snapshot_time := 5, last_event_time := 6,
                   snapshot_interval_minutes := 20, session_history := [] },
        storageExists := true, snapshotCount := 3,
        latestMd := some "latest markdown", contextMd := some "trailhead",
        chain := [defaultSnapshot, defaultSnapshot],
        latestSnapshot := some defaultSnapshot, now := 777 }
      { source := some HookSource.resume, sessionId := some "sess9",
        format := none }).1 =
      some { version := "1.0.0", session_id := "sess9", compaction_count := 2,
             current_threshold := 2/5, last_snapshot_time := 5, last_event_time := 777,
             snapshot_interval_minutes := 20, session_history := [] } := by
  have h := restoreContext_resume_skips (fun _ => "serialized snapshot")
    (fun _ _ _ => "chain briefing") (fun _ _ => "smart briefing") (fun _ _ => "fallback briefing")
    { restoreOnSessionStart := true, thresholds := [1/5, 3/10],
      state := { version := "1.0.0", session_id := "prev", compaction_count := 2,
                 current_threshold := 2/5, last_snapshot_time := 5, last_event_time := 6,
                 snapshot_interval_minutes := 20, session_history := [] },
      storageExists := true, snapshotCount := 3,
      latestMd := some "latest markdown", contextMd := some "trailhead",
      chain := [defaultSnapshot, defaultSnapshot],
      latestSnapshot := some defaultSnapshot, now := 777 }
    { source := some HookSource.resume, sessionId := some "sess9", format := none }
    rfl
  exact ⟨h.1, h.2⟩

-- C3: tool_result name resolution

theorem toolIdFold_none (blocks : List ContentBlock) (tid : String)
    (hno : ∀ bu ∈ blocks, ¬(bu.type = some "tool_use" ∧ bu.id = some tid)) :
    ∀ m : String → Option String, m tid = none →
    (blocks.foldl toolIdStep m) tid = none := by
  induction blocks with
  | nil => intro m hm; exact hm
  | cons b bs ih =>
    intro m hm
    simp only [List.foldl_cons]
    refine ih (fun bu hbu => hno bu (List.mem_cons_of_mem b hbu)) _ ?_
    by_cases hc : b.type = some "tool_use" ∧ jsTruthy b.id ∧ jsTruthy b.name
    · have hid : ¬ b.id = some tid := fun he => hno b (List.mem_cons_self b bs) ⟨hc.1, he⟩
      simp [toolIdStep, if_pos hc, hid, hm]
    · simp [toolIdStep, if_neg hc, hm]

theorem toolIdFold_some (blocks : List ContentBlock) (tid nm : String) :
    ∀ m : String → Option String,
    (blocks.foldl toolIdStep m) tid = some nm →
    (∃ bu ∈ blocks, bu.type = some "tool_use" ∧ bu.id = some tid ∧ bu.name = some nm) ∨
      m tid = some nm := by
  induction blocks with
  | nil => intro m hm; exact Or.inr hm
  | cons b bs ih =>
    intro m hm
    simp only [List.foldl_cons] at hm
    rcases ih _ hm with ⟨bu, hbu, hp⟩ | hstep
    · exact Or.inl ⟨bu, List.mem_cons_of_mem b hbu, hp⟩
    · by_cases hc : b.type = some "tool_use" ∧ jsTruthy b.id ∧ jsTruthy b.name
      · rw [toolIdStep, if_pos hc] at hstep
        by_cases hid : b.id = some tid
        · exact Or.inl ⟨b, List.mem_cons_self b bs, hc.1, hid, by simpa [hid] using hstep⟩
        · exact Or.inr (by simpa [hid] using hstep)
      · exact Or.inr (by rwa [toolIdStep, if_neg hc] at hstep)

/-- Claim C3 counterexample input: a record whose content array holds a
single `tool_result` block referencing `toolu_01` with no `tool_use`
block anywhere in the record. -/
def orphanResultBlocks : List ContentBlock :=
  [{ type := some "tool_result", tool_use_id := some "toolu_01" }]

/-- Claim C3, counterexample.  For the orphan `tool_result` block the
claim says `tool_name` is left empty/undefined; the code instead falls
back to the raw `tool_use_id` (`resolvedName ?? toolUseId`), emitting
`some "toolu_01"`, which is not `none`. -/
theorem toolResult_orphan_keeps_raw_id :
    (extractRecordToolEntries orphanResultBlocks none none).map
      (fun e => e.tool_name) = [some "toolu_01"] ∧
    some "toolu_01" ≠ (none : Option String) :=
  ⟨by decide, by decide⟩

/-- Claim C3 as amended.  A `tool_result` block of a record emits
exactly one synthetic `tool_result` event whose `tool_name` is resolved
against the `tool_use` identifiers of the *same* parent record: if the
per-record table maps the block's `tool_use_id` to a name, that name is
used — and the table only ever contains names of `tool_use` blocks of
this record; if no `tool_use` block of the record carries that
identifier, the event's `tool_name` falls back to the raw
`tool_use_id`; it is `none` only when the block itself has no
`tool_use_id`. -/
theorem toolResult_tool_name_resolution (blocks : List ContentBlock) (ts : Option Int)
    (sid : Option String) (b : ContentBlock) (hb : b.type = some "tool_result") :
    ∃ e, emitForBlock (toolIdToName blocks) ts sid b = [e] ∧
      e.type = EntryType.tool_result ∧
      (∀ tid nm, b.tool_use_id = some tid → tid ≠ "" →
        toolIdToName blocks tid = some nm → e.tool_name = some nm) ∧
      (∀ tid nm, toolIdToName blocks tid = some nm →
        ∃ bu ∈ blocks, bu.type = some "tool_use" ∧ bu.id = some tid ∧ bu.name = some nm) ∧
      (∀ tid, b.tool_use_id = some tid →
        (∀ bu ∈ blocks, ¬(bu.type = some "tool_use" ∧ bu.id = some tid)) →
        e.tool_name = some tid) ∧
      (b.tool_use_id = none → e.tool_name = none) := by
  have hne : ¬(b.type = some "tool_use" ∧ jsTruthy b.name) := by
    rintro ⟨h1, -⟩
    rw [hb] at h1
    simp at h1
  simp only [emitForBlock, if_neg hne, if_pos hb, List.nil_append]
  refine ⟨_, rfl, rfl, ?_, ?_, ?_, ?_⟩
  · intro tid nm htid htne hmap
    simp [htid, htne, hmap, Option.orElse]
  · intro tid nm hmap
    rcases toolIdFold_some blocks tid nm _ hmap with hfound | hinit
    · exact hfound
    · simp at hinit
  · intro tid htid hno
    have hmapnone : toolIdToName blocks tid = none :=
      toolIdFold_none blocks tid hno _ rfl
    by_cases hemp : tid = ""
    · simp [htid, hemp, Option.orElse]
    · simp [htid, hemp, hmapnone, Option.orElse]
  · intro hnone
    simp [hnone, Option.orElse]

/-- A `tool_use` block with id `tu1` and name `Edit`. -/
def sampleUseBlock : ContentBlock :=
  { type := some "tool_use", id := some "tu1", name := some "Edit",
    input := some [("file_path", "a.ts")] }

/-- A `tool_result` block referencing `tu1`. -/
def sampleResultBlock : ContentBlock :=
  { type := some "tool_result", tool_use_id := some "tu1",
    content := EntryContent.str "ok" }

/-- A record content array pairing `sampleUseBlock` with
`sampleResultBlock`. -/
def sampleRecordBlocks : List ContentBlock := [sampleUseBlock, sampleResultBlock]

/-- A record holding a `tool_use` block (id `tu1`, name `Edit`) and a
`tool_result` block referencing `tu1`: the synthetic `tool_result`
event resolves `tool_name` to `Edit`. -/
theorem toolResult_tool_name_resolution_witness :
    (extractRecordToolEntries sampleRecordBlocks none none).map (fun e => e.tool_name)
      = [some "Edit", some "Edit"] ∧
    (∃ e, emitForBlock (toolIdToName sampleRecordBlocks) none none sampleResultBlock = [e] ∧
      e.type = EntryType.tool_result ∧
      (∀ tid nm, sampleResultBlock.tool_use_id = some tid → tid ≠ "" →
        toolIdToName sampleRecordBlocks tid = some nm → e.tool_name = some nm) ∧
      (∀ tid nm, toolIdToName sampleRecordBlocks tid = some nm →
        ∃ bu ∈ sampleRecordBlocks,
          bu.type = some "tool_use" ∧ bu.id = some tid ∧ bu.name = some nm) ∧
      (∀ tid, sampleResultBlock.tool_use_id = some tid →
        (∀ bu ∈ sampleRecordBlocks, ¬(bu.type = some "tool_use" ∧ bu.id = some tid)) →
        e.tool_name = some tid) ∧
      (sampleResultBlock.tool_use_id = none → e.tool_name = none)) :=
  ⟨by decide, toolResult_tool_name_resolution sampleRecordBlocks none none sampleResultBlock rfl⟩

-- C4: chain merge

/-- Spec-side reading of claim C4's merge rule for `intent`/`progress`,
verbatim: "the first non-'Unknown' value scanning newest to oldest"
(default 'Unknown'). -/
def specFirstNonUnknown (sel : Snapshot → String) (chain : List Snapshot) : String :=
  ((chain.reverse.find? (fun s => !(sel s == "Unknown"))).map sel).getD "Unknown"

/-- The amended merge rule for `intent`/`progress`: the first value that
is both non-empty and non-'Unknown', scanning newest to oldest. -/
def firstMeaningful (sel : Snapshot → String) (sentinel : String)
    (chain : List Snapshot) : String :=
  ((chain.reverse.find? (fun s => !(sel s == "") && !(sel s == sentinel))).map sel).getD
    sentinel

theorem scanFold_const (sel : Snapshot → String) (sentinel : String)
    (l : List Snapshot) (cur : String) (hcur : cur ≠ sentinel) :
    l.foldl
      (fun cur s => if cur = sentinel ∧ sel s ≠ "" ∧ sel s ≠ sentinel then sel s else cur)
      cur = cur := by
  induction l with
  | nil => rfl
  | cons s l' ih =>
    simp only [List.foldl_cons]
    rw [if_neg (fun hc => hcur hc.1)]
    exact ih

theorem scanFold_eq_find (sel : Snapshot → String) (sentinel : String)
    (l : List Snapshot) :
    l.foldl
      (fun cur s => if cur = sentinel ∧ sel s ≠ "" ∧ sel s ≠ sentinel then sel s else cur)
      sentinel =
    ((l.find? (fun s => !(sel s == "") && !(sel s == sentinel))).map sel).getD sentinel := by
  induction l with
  | nil => rfl
  | cons s l' ih =>
    simp only [List.foldl_cons, List.find?_cons]
    by_cases hp : sel s ≠ "" ∧ sel s ≠ sentinel
    · rw [if_pos (show True ∧ sel s ≠ "" ∧ sel s ≠ sentinel from ⟨trivial, hp⟩)]
      have hbool : (!(sel s == "") && !(sel s == sentinel)) = true := by
        simp [hp.1, hp.2]
      rw [hbool]
      simp [scanFold_const sel sentinel l' (sel s) hp.2]
    · rw [if_neg (fun hc => hp hc.2)]
      have hbool : (!(sel s == "") && !(sel s == sentinel)) = false := by
        rcases not_and_or.mp hp with hx | hx <;> simp at hx <;> simp [hx]
      rw [hbool]
      exact ih

theorem scanBack_eq_firstMeaningful (sel : Snapshot → String) (sentinel : String)
    (chain : List Snapshot) :
    scanBack sel sentinel chain = firstMeaningful sel sentinel chain :=
  scanFold_eq_find sel sentinel chain.reverse

-- find?-characterization of the fileMap fold

theorem insertFile_find_other (acc : List FileActivity) (f : FileActivity) (p : String)
    (hne : f.path ≠ p) :
    (insertFile acc f).find? (fun g => g.path == p) = acc.find? (fun g => g.path == p) := by
  induction acc with
  | nil =>
    simp [insertFile, List.find?_cons, hne]
  | cons e rest ih =>
    by_cases he : e.path = f.path
    · simp only [insertFile, if_pos he]
      have h1 : ((mergeEntryFA e f).path == p) = false := by
        simp [mergeEntryFA, he, hne]
      have h2 : (e.path == p) = false := by
        rw [he]; simp [hne]
      simp [List.find?_cons, h1, h2]
    · simp only [insertFile, if_neg he]
      by_cases hep : e.path = p
      · simp [List.find?_cons, hep]
      · have h2 : (e.path == p) = false := by simp [hep]
        simp [List.find?_cons, h2, ih]

theorem insertFile_find_same (acc : List FileActivity) (f : FileActivity) :
    (insertFile acc f).find? (fun g => g.path == f.path) =
      some ((acc.find? (fun g => g.path == f.path)).elim f (fun e => mergeEntryFA e f)) := by
  induction acc with
  | nil => simp [insertFile, List.find?_cons]
  | cons e rest ih =>
    by_cases he : e.path = f.path
    · have h1 : ((mergeEntryFA e f).path == f.path) = true := by simp [mergeEntryFA, he]
      have h2 : (e.path == f.path) = true := by simp [he]
      simp [insertFile, if_pos he, List.find?_cons, h1, h2]
    · have h2 : (e.path == f.path) = false := by simp [he]
      simp [insertFile, if_neg he, List.find?_cons, h2, ih]

theorem foldInsert_find (l : List FileActivity) (p : String) :
    ∀ acc : List FileActivity,
    (l.foldl insertFile acc).find? (fun g => g.path == p) =
      match acc.find? (fun g => g.path == p), l.filter (fun g => g.path == p) with
      | some e, fs => some (fs.foldl mergeEntryFA e)
      | none, [] => none
      | none, f :: fs => some (fs.foldl mergeEntryFA f) := by
  induction l with
  | nil =>
    intro acc
    rcases hacc : acc.find? (fun g => g.path == p) with - | e <;> simp [hacc]
  | cons f l' ih =>
    intro acc
    simp only [List.foldl_cons]
    rw [ih (insertFile acc f)]
    by_cases hp : f.path = p
    · subst hp
      rw [insertFile_find_same acc f]
      have hfil : (f :: l').filter (fun g => g.path == f.path) =
          f :: l'.filter (fun g => g.path == f.path) := by
        simp [List.filter_cons]
      rw [hfil]
      rcases hacc : acc.find? (fun g => g.path == f.path) with - | e <;> simp [hacc]
    · have hb : (f.path == p) = false := by simp [hp]
      rw [insertFile_find_other acc f p hp]
      have hfil : (f :: l').filter (fun g => g.path == p) =
          l'.filter (fun g => g.path == p) := by
        simp [List.filter_cons, hb]
      rw [hfil]

theorem foldMerge_lines (e : FileActivity) (fs : List FileActivity) :
    (fs.foldl mergeEntryFA e).lines_changed.getD 0 =
      e.lines_changed.getD 0 + (fs.map (fun f => f.lines_changed.getD 0)).sum := by
  induction fs generalizing e with
  | nil => simp
  | cons f fs' ih =>
    simp only [List.foldl_cons, List.map_cons, List.sum_cons]
    rw [ih (mergeEntryFA e f)]
    simp [mergeEntryFA]
    ring

theorem dedupFold_mem (o : FileOp) (l : List FileOp) :
    ∀ acc : List FileOp,
    (o ∈ l.foldl (fun acc o' => if o' ∈ acc then acc else acc ++ [o']) acc) ↔
      o ∈ acc ∨ o ∈ l := by
  induction l with
  | nil => intro acc; simp
  | cons x l' ih =>
    intro acc
    simp only [List.foldl_cons]
    rw [ih]
    by_cases hx : x ∈ acc
    · rw [if_pos hx]
      constructor
      · rintro (h | h)
        · exact Or.inl h
        · exact Or.inr (List.mem_cons_of_mem x h)
      · rintro (h | h)
        · exact Or.inl h
        · rcases List.mem_cons.mp h with rfl | h
          · exact Or.inl hx
          · exact Or.inr h
    · rw [if_neg hx]
      simp only [List.mem_append, List.mem_singleton, List.mem_cons]
      tauto

theorem dedupAppend_mem (o : FileOp) (xs ys : List FileOp) :
    o ∈ dedupAppend xs ys ↔ o ∈ xs ∨ o ∈ ys := by
  unfold dedupAppend
  rw [dedupFold_mem o (xs ++ ys) []]
  simp

theorem foldMerge_ops (o : FileOp) (e : FileActivity) (fs : List FileActivity) :
    o ∈ (fs.foldl mergeEntryFA e).operations ↔
      o ∈ e.operations ∨ ∃ f ∈ fs, o ∈ f.operations := by
  induction fs generalizing e with
  | nil => simp
  | cons f fs' ih =>
    simp only [List.foldl_cons]
    rw [ih (mergeEntryFA e f)]
    simp only [mergeEntryFA, dedupAppend_mem]
    constructor
    · rintro ((h | h) | ⟨g, hg, ho⟩)
      · exact Or.inl h
      · exact Or.inr ⟨f, List.mem_cons_self f fs', h⟩
      · exact Or.inr ⟨g, List.mem_cons_of_mem f hg, ho⟩
    · rintro (h | ⟨g, hg, ho⟩)
      · exact Or.inl (Or.inl h)
      · rcases List.mem_cons.mp hg with rfl | hg'
        · exact Or.inl (Or.inr ho)
        · exact Or.inr ⟨g, hg', ho⟩

/-- Sum of the per-path heuristic line deltas across a whole chain. -/
def pathLines (chain : List Snapshot) (p : String) : Int :=
  (((allFiles chain).filter (fun g => g.path == p)).map
    (fun f => f.lines_changed.getD 0)).sum

/-- Oldest snapshot of the example chain: intent `"X"`, open items a, b,
and 10 lines edited in `src/a.ts`. -/
def snapIntentX : Snapshot :=
  { defaultSnapshot with
    snapshot_id := "SNAP_A", timestamp := 100, intent := "X",
    open_items := [{ description := "a", priority := Priority.medium },
                   { description := "b", priority := Priority.low }],
    files_changed := [{ path := "src/a.ts", operations := [FileOp.edit],
                        lines_changed := some 10 }] }

/-- Newest snapshot of the counterexample chain: its intent is the empty
string (not the `'Unknown'` sentinel), open item c, 20 lines written in
`src/a.ts`. -/
def snapIntentEmpty : Snapshot :=
  { defaultSnapshot with
    snapshot_id := "SNAP_B", timestamp := 200, intent := "",
    open_items := [{ description := "c", priority := Priority.high }],
    files_changed := [{ path := "src/a.ts", operations := [FileOp.write],
                        lines_changed := some 20 }] }

/-- Newest snapshot of the witness chain: intent is the `'Unknown'`
sentinel itself. -/
def snapIntentUnknown : Snapshot := { snapIntentEmpty with intent := "Unknown" }

/-- Claim C4, counterexample.  On the chain [snapIntentX,
snapIntentEmpty] — newest snapshot's intent is `""` — the claim's rule
("the first non-'Unknown' value scanning newest to oldest") picks the
empty string, but the merge returns `"X"`: the code's truthiness guard
`chain[i].intent &&` skips empty values along with the sentinel. -/
theorem mergeSnapshotChain_counterexample :
    specFirstNonUnknown (fun s => s.intent) [snapIntentX, snapIntentEmpty] = "" ∧
    (mergeSnapshotChain [snapIntentX, snapIntentEmpty]).intent = "X" ∧
    ("X" : String) ≠ "" :=
  ⟨by decide, by decide, by decide⟩

/-- Claim C4 as amended.  For every chronological chain:
`intent`/`progress` are the first value that is non-empty *and*
non-'Unknown' scanning newest to oldest; `open_items` are exactly the
newest snapshot's; and each path occurring in the chain has exactly one
merged entry whose `lines_changed` is the sum of that path's
`lines_changed` values across the chain and whose `operations` are the
set union. -/
theorem mergeSnapshotChain_spec (chain : List Snapshot) :
    (mergeSnapshotChain chain).intent
        = firstMeaningful (fun s => s.intent) "Unknown" chain ∧
    (mergeSnapshotChain chain).progress
        = firstMeaningful (fun s => s.progress) "Unknown" chain ∧
    (∀ last, chain.getLast? = some last →
      (mergeSnapshotChain chain).openItems = last.open_items) ∧
    (∀ p, (∃ f ∈ allFiles chain, f.path = p) →
      ∃ e, (mergeSnapshotChain chain).files.find? (fun g => g.path == p) = some e ∧
        e.lines_changed.getD 0 = pathLines chain p ∧
        (∀ o, o ∈ e.operations ↔
          ∃ f ∈ allFiles chain, f.path = p ∧ o ∈ f.operations)) := by
  refine ⟨scanBack_eq_firstMeaningful _ _ chain,
    scanBack_eq_firstMeaningful _ _ chain, ?_, ?_⟩
  · intro last hlast
    show (chain.getLastD defaultSnapshot).open_items = last.open_items
    rw [List.getLastD_eq_getLast?, hlast]
    rfl
  · intro p hp
    have hfind := foldInsert_find (allFiles chain) p []
    have hnone : ([] : List FileActivity).find? (fun g => g.path == p) = none := rfl
    rw [hnone] at hfind
    rcases hfil : (allFiles chain).filter (fun g => g.path == p) with - | ⟨f, fs⟩
    · rcases hp with ⟨f, hf, hfp⟩
      have hmem : f ∈ (allFiles chain).filter (fun g => g.path == p) :=
        List.mem_filter.mpr ⟨hf, by simp [hfp]⟩
      rw [hfil] at hmem
      simp at hmem
    · rw [hfil] at hfind
      have hfiles : (mergeSnapshotChain chain).files
          = (allFiles chain).foldl insertFile [] := rfl
      refine ⟨fs.foldl mergeEntryFA f, ?_, ?_, ?_⟩
      · rw [hfiles]
        exact hfind
      · rw [foldMerge_lines]
        unfold pathLines
        rw [hfil]
        simp
      · intro o
        rw [foldMerge_ops]
        constructor
        · rintro (ho | ⟨g, hg, ho⟩)
          · have hmem : f ∈ (allFiles chain).filter (fun g => g.path == p) := by
              rw [hfil]; exact List.mem_cons_self f fs
            have hf := List.mem_filter.mp hmem
            exact ⟨f, hf.1, by simpa using hf.2, ho⟩
          · have hmem : g ∈ (allFiles chain).filter (fun g => g.path == p) := by
              rw [hfil]; exact List.mem_cons_of_mem f hg
            have hg' := List.mem_filter.mp hmem
            exact ⟨g, hg'.1, by simpa using hg'.2, ho⟩
        · rintro ⟨g, hg, hgp, ho⟩
          have hmem : g ∈ f :: fs := by
            rw [← hfil]
            exact List.mem_filter.mpr ⟨hg, by simp [hgp]⟩
          rcases List.mem_cons.mp hmem with rfl | hg'
          · exact Or.inl ho
          · exact Or.inr ⟨g, hg', ho⟩

/-- The claim's particular example, driven through the amended theorem:
merging [A, B] with A.intent = "X", B.intent = 'Unknown' yields intent
"X" and only B's open items, and `src/a.ts` (10 lines edited in A, 20
written in B) merges to a single entry summing to 30 with the operation
union. -/
theorem mergeSnapshotChain_spec_witness :
    (mergeSnapshotChain [snapIntentX, snapIntentUnknown]).intent
        = firstMeaningful (fun s => s.intent) "Unknown" [snapIntentX, snapIntentUnknown] ∧
    firstMeaningful (fun s => s.intent) "Unknown" [snapIntentX, snapIntentUnknown] = "X" ∧
    (mergeSnapshotChain [snapIntentX, snapIntentUnknown]).openItems
        = snapIntentUnknown.open_items ∧
    (∃ e, (mergeSnapshotChain [snapIntentX, snapIntentUnknown]).files.find?
        (fun g => g.path == "src/a.ts") = some e ∧
      e.lines_changed.getD 0 = pathLines [snapIntentX, snapIntentUnknown] "src/a.ts" ∧
      (∀ o, o ∈ e.operations ↔
        ∃ f ∈ allFiles [snapIntentX, snapIntentUnknown],
          f.path = "src/a.ts" ∧ o ∈ f.operations)) ∧
    pathLines [snapIntentX, snapIntentUnknown] "src/a.ts" = 30 :=
  ⟨(mergeSnapshotChain_spec [snapIntentX, snapIntentUnknown]).1,
   by decide,
   (mergeSnapshotChain_spec [snapIntentX, snapIntentUnknown]).2.2.1 snapIntentUnknown rfl,
   (mergeSnapshotChain_spec [snapIntentX, snapIntentUnknown]).2.2.2 "src/a.ts" (by decide),
   by decide⟩

end Bookmark
